import Mathlib

/-!
Shallow embedding of the store layer of the `sonic` search backend
(`src/store/keyer.rs` and `src/store/kv.rs`): the key encoder
(xxHash32 / xxHash64 plus base-36 rendering), the store-handle
builder/pool and the per-bucket action facade, together with proofs of
the specified properties.
-/

namespace Sonic

/-! ### Machine-integer helpers (wrapping `u32` / `u64` arithmetic) -/

/-- Truncation to 32 bits, as performed by Rust `u32` wrapping arithmetic. -/
def u32 (n : Nat) : Nat := n % 4294967296

/-- Truncation to 64 bits, as performed by Rust `u64` wrapping arithmetic. -/
def u64 (n : Nat) : Nat := n % 18446744073709551616

/-- Left rotation by `r` bits of a 32-bit value `x`. -/
def rotl32 (x r : Nat) : Nat := u32 (x <<< r) ||| (x >>> (32 - r))

/-- Left rotation by `r` bits of a 64-bit value `x`. -/
def rotl64 (x r : Nat) : Nat := u64 (x <<< r) ||| (x >>> (64 - r))

/-- Little-endian read of four bytes into one 32-bit lane. -/
def le32 (b0 b1 b2 b3 : Nat) : Nat :=
  b0 + 256 * b1 + 65536 * b2 + 16777216 * b3

/-- Little-endian read of eight bytes into one 64-bit lane. -/
def le64 (b0 b1 b2 b3 b4 b5 b6 b7 : Nat) : Nat :=
  le32 b0 b1 b2 b3 + 4294967296 * le32 b4 b5 b6 b7

/-! ### UTF-8 bytes of a string (Rust `str::as_bytes`) -/

/-- The UTF-8 encoding of one scalar value, as Rust stores `char`s inside `str`. -/
def charUtf8 (c : Char) : List Nat :=
  let n := c.toNat
  if n < 128 then [n]
  else if n < 2048 then [192 + n / 64, 128 + n % 64]
  else if n < 65536 then [224 + n / 4096, 128 + n / 64 % 64, 128 + n % 64]
  else [240 + n / 262144, 128 + n / 4096 % 64, 128 + n / 64 % 64, 128 + n % 64]

/-- The byte sequence of a string, Rust's `str::as_bytes`. -/
def strBytes (s : String) : List Nat := s.data.flatMap charUtf8

/-! ### xxHash32 (crate `twox_hash`, `XxHash32`) -/

def xxh32p1 : Nat := 2654435761
def xxh32p2 : Nat := 2246822519
def xxh32p3 : Nat := 3266489917
def xxh32p4 : Nat := 668265263
def xxh32p5 : Nat := 374761393

/-- One xxHash32 accumulator round on a 32-bit lane. -/
def xxh32round (acc lane : Nat) : Nat :=
  u32 (rotl32 (u32 (acc + u32 (lane * xxh32p2))) 13 * xxh32p1)

/-- Consume 16-byte stripes into the four accumulators while at least 16
bytes remain, returning the accumulators and the unconsumed tail. -/
def xxh32stripes (v1 v2 v3 v4 : Nat) :
    List Nat → (Nat × Nat × Nat × Nat) × List Nat
  | b0 :: b1 :: b2 :: b3 :: b4 :: b5 :: b6 :: b7 ::
    b8 :: b9 :: b10 :: b11 :: b12 :: b13 :: b14 :: b15 :: rest =>
      xxh32stripes (xxh32round v1 (le32 b0 b1 b2 b3))
        (xxh32round v2 (le32 b4 b5 b6 b7))
        (xxh32round v3 (le32 b8 b9 b10 b11))
        (xxh32round v4 (le32 b12 b13 b14 b15)) rest
  | l => ((v1, v2, v3, v4), l)

/-- Finalisation: consume remaining 4-byte lanes, then single bytes. -/
def xxh32tail (h : Nat) : List Nat → Nat
  | b0 :: b1 :: b2 :: b3 :: rest =>
      xxh32tail (u32 (rotl32 (u32 (h + u32 (le32 b0 b1 b2 b3 * xxh32p3))) 17 * xxh32p4)) rest
  | b :: rest =>
      xxh32tail (u32 (rotl32 (u32 (h + u32 (b * xxh32p5))) 11 * xxh32p1)) rest
  | [] => h

/-- Final avalanche mixing of xxHash32. -/
def xxh32avalanche (h : Nat) : Nat :=
  let h1 := h ^^^ (h >>> 15)
  let h2 := u32 (h1 * xxh32p2)
  let h3 := h2 ^^^ (h2 >>> 13)
  let h4 := u32 (h3 * xxh32p3)
  h4 ^^^ (h4 >>> 16)

/-- xxHash32 of a byte sequence with the given seed: the value produced by
`XxHash32::with_seed(seed)` after writing `input` and calling `finish`. -/
def xxHash32 (seed : Nat) (input : List Nat) : Nat :=
  let len := input.length
  let (h, rest) :=
    if 16 ≤ len then
      let ((v1, v2, v3, v4), rest) :=
        xxh32stripes (u32 (seed + xxh32p1 + xxh32p2)) (u32 (seed + xxh32p2))
          (u32 seed) (u32 (seed + 4294967296 - xxh32p1)) input
      (u32 (rotl32 v1 1 + rotl32 v2 7 + rotl32 v3 12 + rotl32 v4 18), rest)
    else
      (u32 (seed + xxh32p5), input)
  xxh32avalanche (xxh32tail (u32 (h + len)) rest)

/-! ### xxHash64 (crate `twox_hash`, `XxHash` = `XxHash64`) -/

def xxh64p1 : Nat := 11400714785074694791
def xxh64p2 : Nat := 14029467366897019727
def xxh64p3 : Nat := 1609587929392839161
def xxh64p4 : Nat := 9650029242287828579
def xxh64p5 : Nat := 2870177450012600261

/-- One xxHash64 accumulator round on a 64-bit lane. -/
def xxh64round (acc lane : Nat) : Nat :=
  u64 (rotl64 (u64 (acc + u64 (lane * xxh64p2))) 31 * xxh64p1)

/-- Merge of one accumulator into the folded hash. -/
def xxh64merge (h v : Nat) : Nat :=
  u64 ((h ^^^ xxh64round 0 v) * xxh64p1 + xxh64p4)

/-- Consume 32-byte stripes into the four accumulators while at least 32
bytes remain, returning the accumulators and the unconsumed tail. -/
def xxh64stripes (v1 v2 v3 v4 : Nat) :
    List Nat → (Nat × Nat × Nat × Nat) × List Nat
  | b0 :: b1 :: b2 :: b3 :: b4 :: b5 :: b6 :: b7 ::
    b8 :: b9 :: b10 :: b11 :: b12 :: b13 :: b14 :: b15 ::
    b16 :: b17 :: b18 :: b19 :: b20 :: b21 :: b22 :: b23 ::
    b24 :: b25 :: b26 :: b27 :: b28 :: b29 :: b30 :: b31 :: rest =>
      xxh64stripes (xxh64round v1 (le64 b0 b1 b2 b3 b4 b5 b6 b7))
        (xxh64round v2 (le64 b8 b9 b10 b11 b12 b13 b14 b15))
        (xxh64round v3 (le64 b16 b17 b18 b19 b20 b21 b22 b23))
        (xxh64round v4 (le64 b24 b25 b26 b27 b28 b29 b30 b31)) rest
  | l => ((v1, v2, v3, v4), l)

/-- Finalisation: consume remaining 8-byte lanes, then at most one 4-byte
lane, then single bytes. -/
def xxh64tail (h : Nat) : List Nat → Nat
  | b0 :: b1 :: b2 :: b3 :: b4 :: b5 :: b6 :: b7 :: rest =>
      xxh64tail
        (u64 (rotl64 (h ^^^ xxh64round 0 (le64 b0 b1 b2 b3 b4 b5 b6 b7)) 27
          * xxh64p1 + xxh64p4)) rest
  | b0 :: b1 :: b2 :: b3 :: rest =>
      xxh64tail
        (u64 (rotl64 (h ^^^ u64 (le32 b0 b1 b2 b3 * xxh64p1)) 23
          * xxh64p2 + xxh64p3)) rest
  | b :: rest =>
      xxh64tail (u64 (rotl64 (h ^^^ u64 (b * xxh64p5)) 11 * xxh64p1)) rest
  | [] => h

/-- Final avalanche mixing of xxHash64. -/
def xxh64avalanche (h : Nat) : Nat :=
  let h1 := h ^^^ (h >>> 33)
  let h2 := u64 (h1 * xxh64p2)
  let h3 := h2 ^^^ (h2 >>> 29)
  let h4 := u64 (h3 * xxh64p3)
  h4 ^^^ (h4 >>> 32)

/-- xxHash64 of a byte sequence with the given seed: the value produced by
`XxHash::with_seed(seed)` after writing `input` and calling `finish`. -/
def xxHash64 (seed : Nat) (input : List Nat) : Nat :=
  let len := input.length
  let (h, rest) :=
    if 32 ≤ len then
      let ((v1, v2, v3, v4), rest) :=
        xxh64stripes (u64 (seed + xxh64p1 + xxh64p2)) (u64 (seed + xxh64p2))
          (u64 seed) (u64 (seed + 18446744073709551616 - xxh64p1)) input
      (xxh64merge (xxh64merge (xxh64merge (xxh64merge
        (u64 (rotl64 v1 1 + rotl64 v2 7 + rotl64 v3 12 + rotl64 v4 18))
        v1) v2) v3) v4, rest)
    else
      (u64 (seed + xxh64p5), input)
  xxh64avalanche (xxh64tail (u64 (h + len)) rest)

/-! ### Base-36 rendering (crate `radix_fmt`, `radix(value, 36)`) -/

/-- Digit character of the `radix_fmt` crate: `0`-`9` then lowercase
`a`-`z`. -/
def digitChar (d : Nat) : Char :=
  if d < 10 then Char.ofNat (48 + d) else Char.ofNat (87 + d)

/-- Fuel-driven digit accumulation, most significant digit first; mirrors
the division loop of `radix_fmt`'s `Display` implementation. -/
def toRadixCore (b : Nat) : Nat → Nat → List Char → List Char
  | 0, _, ds => ds
  | fuel + 1, n, ds =>
    let d := digitChar (n % b)
    let n' := n / b
    if n' = 0 then d :: ds else toRadixCore b fuel n' (d :: ds)

/-- Rendering of `n` in base `b` as `radix_fmt::radix(n, b)` displays it:
shortest representation, lowercase digits, and `0` renders as `"0"`. -/
def radixFmt (b n : Nat) : String := ⟨toRadixCore b (n + 1) n []⟩

/-! ### Store keyer (`src/store/keyer.rs`) -/

/-- Internal identifier of an indexed object (`StoreObjectIID`; a `u64` in
the source, as the keyer feeds it unhashed into a `Radix<u64>`). -/
abbrev StoreObjectIID := Nat

/-- External identifier of an indexed object (`StoreObjectOID`; a string
whose raw bytes the keyer hashes). -/
abbrev StoreObjectOID := String

/-- The four index kinds, each carrying its route payload (`StoreKeyerIdx`). -/
inductive StoreKeyerIdx where
  | TermToIIDs (term : String)
  | OIDToIID (oid : StoreObjectOID)
  | IIDToOID (iid : StoreObjectIID)
  | IIDToTerms (iid : StoreObjectIID)

/-- A keyer: index kind plus bucket (`StoreKeyer`). -/
structure StoreKeyer where
  idx : StoreKeyerIdx
  bucket : String

def STORE_KEYER_BUCKET_COMPACT_BASE : Nat := 36

def STORE_KEYER_ROUTE_COMPACT_BASE : Nat := 36

/-- Rust `StoreKeyerIdx::to_index`: the numeric discriminant of the kind. -/
def StoreKeyerIdx.to_index : StoreKeyerIdx → Nat
  | .TermToIIDs _ => 0
  | .OIDToIID _ => 1
  | .IIDToOID _ => 2
  | .IIDToTerms _ => 3

/-- Rust `StoreKeyerBuilder::term_to_iids`. -/
def StoreKeyerBuilder.term_to_iids (bucket term : String) : StoreKeyer :=
  { idx := .TermToIIDs term, bucket := bucket }

/-- Rust `StoreKeyerBuilder::oid_to_iid`. -/
def StoreKeyerBuilder.oid_to_iid (bucket : String) (oid : StoreObjectOID) : StoreKeyer :=
  { idx := .OIDToIID oid, bucket := bucket }

/-- Rust `StoreKeyerBuilder::iid_to_oid`. -/
def StoreKeyerBuilder.iid_to_oid (bucket : String) (iid : StoreObjectIID) : StoreKeyer :=
  { idx := .IIDToOID iid, bucket := bucket }

/-- Rust `StoreKeyerBuilder::iid_to_terms`. -/
def StoreKeyerBuilder.iid_to_terms (bucket : String) (iid : StoreObjectIID) : StoreKeyer :=
  { idx := .IIDToTerms iid, bucket := bucket }

/-- Rust `StoreKeyer::hash_route_text`: 64-bit xxHash, seed 0, of the
text's bytes. -/
def StoreKeyer.hash_route_text (text : String) : Nat :=
  xxHash64 0 (strBytes text)

/-- Rust `StoreKeyer::bucket_to_compact`: 32-bit xxHash, seed 0, of the
bucket's bytes, rendered base-36. -/
def StoreKeyer.bucket_to_compact (k : StoreKeyer) : String :=
  radixFmt STORE_KEYER_BUCKET_COMPACT_BASE (xxHash32 0 (strBytes k.bucket))

/-- Rust `StoreKeyer::route_to_compact`: text routes are hashed with the
64-bit hash, integer routes are used directly; rendered base-36. -/
def StoreKeyer.route_to_compact (k : StoreKeyer) : String :=
  let value :=
    match k.idx with
    | .TermToIIDs route => StoreKeyer.hash_route_text route
    | .OIDToIID route => StoreKeyer.hash_route_text route
    | .IIDToOID route => route
    | .IIDToTerms route => route
  radixFmt STORE_KEYER_ROUTE_COMPACT_BASE value

/-- Rust `StoreKeyer::to_string`: the physical key
`"<discriminant>:<bucket_token>:<route_token>"`. -/
def StoreKeyer.to_string (k : StoreKeyer) : String :=
  toString k.idx.to_index ++ ":" ++ k.bucket_to_compact ++ ":" ++ k.route_to_compact

/-! ### Store KV handle and action facade (`src/store/kv.rs`) -/

inductive DBCompactionStyle where
  | Level
  | Universal
  | Fifo
deriving DecidableEq

inductive DBCompressionType where
  | None
  | Snappy
  | Lz4
  | Zstd
deriving DecidableEq

/-- The engine options touched by `StoreKVBuilder::configure`: a model of
rocksdb `Options` restricted to the fields the source sets. -/
structure DBOptions where
  create_if_missing : Bool
  use_fsync : Bool
  compaction_style : DBCompactionStyle
  compression_type : DBCompressionType
  parallelism : Int
  max_open_files : Int
  max_background_compactions : Int
  max_background_flushes : Int

/-- Engine defaults for the modelled fields (`rocksdb::Options::default()`). -/
def DBOptions.default : DBOptions :=
  { create_if_missing := false
    use_fsync := false
    compaction_style := .Level
    compression_type := .Snappy
    parallelism := 1
    max_open_files := -1
    max_background_compactions := 1
    max_background_flushes := 1 }

/-- Modelled from the spec: the configuration surface consumed at open time
(the source reads the global `APP_CONF.store.kv.database`, whose declaring
module is not under `src/`) — compression flag, parallelism, max open
files, max background compactions, max background flushes. -/
structure ConfigStoreKVDatabase where
  compress : Bool
  parallelism : Nat
  max_files : Nat
  max_compactions : Nat
  max_flushes : Nat

/-- Rust `StoreKVBuilder::configure`, with the ambient configuration made
an explicit argument: starts from engine defaults and sets each option
exactly as the source does. -/
def StoreKVBuilder.configure (c : ConfigStoreKVDatabase) : DBOptions :=
  let db_options := DBOptions.default
  { db_options with
    create_if_missing := true
    use_fsync := false
    compaction_style := .Level
    compression_type := if c.compress = true then .Lz4 else .None
    parallelism := Int.ofNat c.parallelism
    max_open_files := Int.ofNat c.max_files
    max_background_compactions := Int.ofNat c.max_compactions
    max_background_flushes := Int.ofNat c.max_flushes }

/-- Engine-side state: how many connections have been opened so far; the
observable part of the external engine needed to talk about handle reuse. -/
structure EngineState where
  openCount : Nat

/-- An open engine connection, identified by its opening sequence number. -/
structure DB where
  id : Nat

/-- A rocksdb error (the binding wraps an error message string). -/
abbrev DBError := String

/-- The external engine's `DB::open(options, path)`: each call establishes
a fresh connection, modelled as always succeeding with a new identifier. -/
def DB.openDB (_options : DBOptions) (_path : String) (s : EngineState) :
    Except DBError DB × EngineState :=
  (.ok { id := s.openCount }, { openCount := s.openCount + 1 })

/-- Rust `StoreKV`: the owned database handle. -/
structure StoreKV where
  database : DB

/-- Rust `StoreKVBuilder::open`: configure, then open the engine at the
configured path joined with `"./collection"` (the path, read from the
ambient configuration in the source, is an explicit argument here). -/
def StoreKVBuilder.openStore (c : ConfigStoreKVDatabase) (path : String)
    (s : EngineState) : Except DBError DB × EngineState :=
  let db_options := StoreKVBuilder.configure c
  let db_path := path ++ "/collection"
  DB.openDB db_options db_path s

/-- Rust `StoreKVBuilder::new`: open, then wrap the connection in a
`StoreKV`. -/
def StoreKVBuilder.new (c : ConfigStoreKVDatabase) (path : String)
    (s : EngineState) : Except DBError StoreKV × EngineState :=
  let (r, s') := StoreKVBuilder.openStore c path s
  (r.map fun db => { database := db }, s')

/-- Rust `StoreKVPool::acquire`: the source ignores the target and builds a
brand-new store on every call (pooling is a TODO in the source). -/
def StoreKVPool.acquire (_target : String) (c : ConfigStoreKVDatabase)
    (path : String) (s : EngineState) : Except DBError StoreKV × EngineState :=
  StoreKVBuilder.new c path s

/-- Rust `StoreKVAction`: a store handle bound to a bucket (the bucket is
the text of the `StoreItemPart`, what its `as_str` yields). -/
structure StoreKVAction where
  store : StoreKV
  bucket : String

/-- Rust `StoreKVActionBuilder::new`. -/
def StoreKVActionBuilder.new (bucket : String) (store : StoreKV) : StoreKVAction :=
  { store := store, bucket := bucket }

/-- Rust `StoreKVAction::get_term_to_iids`: builds the keyer, then is
stubbed to return `None`. -/
def StoreKVAction.get_term_to_iids (a : StoreKVAction) (term : String) :
    Option (List StoreObjectIID) :=
  let _keyer := StoreKeyerBuilder.term_to_iids a.bucket term
  none

/-- Rust `StoreKVAction::set_term_to_iids`: builds the keyer, then is
stubbed to return `Err(())`. -/
def StoreKVAction.set_term_to_iids (a : StoreKVAction) (term : String)
    (_iids : List StoreObjectIID) : Except Unit Unit :=
  let _keyer := StoreKeyerBuilder.term_to_iids a.bucket term
  .error ()

/-- Rust `StoreKVAction::delete_term_to_iids`: stubbed to `Err(())`. -/
def StoreKVAction.delete_term_to_iids (a : StoreKVAction) (term : String) :
    Except Unit Unit :=
  let _keyer := StoreKeyerBuilder.term_to_iids a.bucket term
  .error ()

/-- Rust `StoreKVAction::get_oid_to_iid`: stubbed to `None`. -/
def StoreKVAction.get_oid_to_iid (a : StoreKVAction) (oid : StoreObjectOID) :
    Option StoreObjectIID :=
  let _keyer := StoreKeyerBuilder.oid_to_iid a.bucket oid
  none

/-- Rust `StoreKVAction::set_oid_to_iid`: stubbed to `Err(())`. -/
def StoreKVAction.set_oid_to_iid (a : StoreKVAction) (oid : StoreObjectOID)
    (_iid : StoreObjectIID) : Except Unit Unit :=
  let _keyer := StoreKeyerBuilder.oid_to_iid a.bucket oid
  .error ()

/-- Rust `StoreKVAction::delete_oid_to_iid`: stubbed to `Err(())`. -/
def StoreKVAction.delete_oid_to_iid (a : StoreKVAction) (oid : StoreObjectOID) :
    Except Unit Unit :=
  let _keyer := StoreKeyerBuilder.oid_to_iid a.bucket oid
  .error ()

/-- Rust `StoreKVAction::get_iid_to_oid`: stubbed to `None`. -/
def StoreKVAction.get_iid_to_oid (a : StoreKVAction) (iid : StoreObjectIID) :
    Option StoreObjectOID :=
  let _keyer := StoreKeyerBuilder.iid_to_oid a.bucket iid
  none

/-- Rust `StoreKVAction::set_iid_to_oid`: stubbed to `Err(())`. -/
def StoreKVAction.set_iid_to_oid (a : StoreKVAction) (iid : StoreObjectIID)
    (_oid : StoreObjectOID) : Except Unit Unit :=
  let _keyer := StoreKeyerBuilder.iid_to_oid a.bucket iid
  .error ()

/-- Rust `StoreKVAction::delete_iid_to_oid`: stubbed to `Err(())`. -/
def StoreKVAction.delete_iid_to_oid (a : StoreKVAction) (iid : StoreObjectIID) :
    Except Unit Unit :=
  let _keyer := StoreKeyerBuilder.iid_to_oid a.bucket iid
  .error ()

/-- Rust `StoreKVAction::get_iid_to_terms`: stubbed to `None`. -/
def StoreKVAction.get_iid_to_terms (a : StoreKVAction) (iid : StoreObjectIID) :
    Option (List String) :=
  let _keyer := StoreKeyerBuilder.iid_to_terms a.bucket iid
  none

/-- Rust `StoreKVAction::set_iid_to_terms`: stubbed to `Err(())`. -/
def StoreKVAction.set_iid_to_terms (a : StoreKVAction) (iid : StoreObjectIID)
    (_terms : List String) : Except Unit Unit :=
  let _keyer := StoreKeyerBuilder.iid_to_terms a.bucket iid
  .error ()

/-- Rust `StoreKVAction::delete_iid_to_terms`: stubbed to `Err(())`. -/
def StoreKVAction.delete_iid_to_terms (a : StoreKVAction) (iid : StoreObjectIID) :
    Except Unit Unit :=
  let _keyer := StoreKeyerBuilder.iid_to_terms a.bucket iid
  .error ()

/-! ### Auxiliary notions for the stated properties -/

/-- The alphabet of lowercase base-36 text. -/
def base36Chars : List Char := "0123456789abcdefghijklmnopqrstuvwxyz".data

/-- A well-formed base-36 token: non-empty, lowercase base-36 characters,
shortest representation (a leading `'0'` only in the token `"0"` itself). -/
def isBase36Token (s : String) : Prop :=
  s ≠ "" ∧ (∀ c ∈ s.data, c ∈ base36Chars) ∧ (s.data.head? = some '0' → s = "0")

/-- Numeric value of a base-36 digit character, inverse of `digitChar`. -/
def digitVal (c : Char) : Nat :=
  if 97 ≤ c.toNat then c.toNat - 87 else c.toNat - 48

/-- An engine that has opened no connection yet. -/
def engine0 : EngineState := { openCount := 0 }

/-- A sample configuration. -/
def confExample : ConfigStoreKVDatabase :=
  { compress := true, parallelism := 4, max_files := 1000
    max_compactions := 2, max_flushes := 2 }

/-- A sample store handle. -/
def kvExample : StoreKV := { database := { id := 0 } }

/-- A sample action facade bound to the bucket `"default"`. -/
def actionExample : StoreKVAction := StoreKVActionBuilder.new "default" kvExample

/-! ### Properties of the base-36 rendering -/

theorem toRadixCore_eq_digits {b : Nat} (hb : 1 < b) :
    ∀ (fuel n : Nat) (ds : List Char), n ≠ 0 → n ≤ fuel →
      toRadixCore b fuel n ds = ((Nat.digits b n).map digitChar).reverse ++ ds := by
  intro fuel
  induction fuel with
  | zero => intro n ds hn hle; omega
  | succ fuel ih =>
    intro n ds hn hle
    rw [Nat.digits_def' hb (Nat.pos_of_ne_zero hn)]
    by_cases h : n / b = 0
    · simp [toRadixCore, h]
    · have hstep : toRadixCore b (fuel + 1) n ds
        = toRadixCore b fuel (n / b) (digitChar (n % b) :: ds) := by
        simp [toRadixCore, h]
      have hdiv : n / b < n := Nat.div_lt_self (Nat.pos_of_ne_zero hn) hb
      rw [hstep, ih (n / b) (digitChar (n % b) :: ds) h (by omega)]
      simp

theorem radixFmt_data {b n : Nat} (hb : 1 < b) (hn : n ≠ 0) :
    (radixFmt b n).data = ((Nat.digits b n).map digitChar).reverse := by
  show toRadixCore b (n + 1) n [] = _
  rw [toRadixCore_eq_digits hb (n + 1) n [] hn (by omega), List.append_nil]

theorem radixFmt_zero (b : Nat) : radixFmt b 0 = "0" := by
  simp [radixFmt, toRadixCore, digitChar]

theorem digitChar_mem_base36 : ∀ d < 36, digitChar d ∈ base36Chars := by decide

theorem digitChar_ne_zero_char : ∀ d < 36, d ≠ 0 → digitChar d ≠ '0' := by decide

theorem digitVal_digitChar : ∀ d < 36, digitVal (digitChar d) = d := by decide

theorem getLastq_map {α β : Type} (f : α → β) :
    ∀ l : List α, (l.map f).getLast? = (l.getLast?).map f
  | [] => rfl
  | [_] => rfl
  | a :: b :: t => by
    rw [List.map_cons, List.map_cons, List.getLast?_cons_cons,
      List.getLast?_cons_cons, ← List.map_cons]
    exact getLastq_map f (b :: t)

theorem isBase36Token_radixFmt (n : Nat) : isBase36Token (radixFmt 36 n) := by
  by_cases hn : n = 0
  · subst hn
    rw [radixFmt_zero]
    exact ⟨by decide, by decide, fun _ => rfl⟩
  · have hdata := radixFmt_data (b := 36) (by norm_num) hn
    have hnil : Nat.digits 36 n ≠ [] := Nat.digits_ne_nil_iff_ne_zero.mpr hn
    refine ⟨?_, ?_, ?_⟩
    · intro hcontra
      apply hnil
      have hdnil : (radixFmt 36 n).data = [] := by rw [hcontra]
      rw [hdata] at hdnil
      simpa using hdnil
    · intro c hc
      rw [hdata, List.mem_reverse] at hc
      obtain ⟨d, hd, rfl⟩ := List.mem_map.mp hc
      exact digitChar_mem_base36 d (Nat.digits_lt_base (by norm_num) hd)
    · intro hhead
      exfalso
      rw [hdata, List.head?_reverse, getLastq_map,
        List.getLast?_eq_getLast _ hnil, Option.map_some'] at hhead
      have hlast := Nat.getLast_digit_ne_zero 36 hn
      have hmem : (Nat.digits 36 n).getLast hnil ∈ Nat.digits 36 n :=
        List.getLast_mem hnil
      have hlt := Nat.digits_lt_base (b := 36) (by norm_num) hmem
      exact digitChar_ne_zero_char _ hlt hlast (by simpa using hhead)

theorem decode_radixFmt (n : Nat) :
    Nat.ofDigits 36 (((radixFmt 36 n).data.map digitVal).reverse) = n := by
  by_cases hn : n = 0
  · subst hn; rw [radixFmt_zero]; decide
  · rw [radixFmt_data (by norm_num) hn, List.map_reverse, List.reverse_reverse,
      List.map_map]
    have hmap : ∀ l : List Nat, (∀ d ∈ l, d < 36) →
        l.map (digitVal ∘ digitChar) = l := by
      intro l hl
      induction l with
      | nil => rfl
      | cons d t iht =>
        have hd : digitVal (digitChar d) = d :=
          digitVal_digitChar d (hl d (by simp))
        simp only [List.map_cons, Function.comp_apply, hd,
          iht (fun x hx => hl x (by simp [hx]))]
    rw [hmap _ (fun d hd => Nat.digits_lt_base (by norm_num) hd),
      Nat.ofDigits_digits]

/-! ### Helper facts about the keyer -/

theorem colon_not_base36 {s : String} (h : ∀ c ∈ s.data, c ∈ base36Chars) :
    ':' ∉ s.data := by
  intro hc
  have hmem := h _ hc
  revert hmem
  decide

theorem to_index_lt_four (i : StoreKeyerIdx) : i.to_index < 4 := by
  cases i <;> simp [StoreKeyerIdx.to_index]

theorem digitChar_inj4 : ∀ a < 4, ∀ b < 4, digitChar a = digitChar b → a = b := by
  decide

theorem to_string_head (k : StoreKeyer) :
    (StoreKeyer.to_string k).data.head? = some (digitChar k.idx.to_index) := by
  obtain ⟨idx, bucket⟩ := k
  cases idx <;> (simp only [StoreKeyer.to_string, StoreKeyerIdx.to_index]; rfl)

/-! ### The claims -/

/-- C1: the key encoder matches the spec's concrete oracle vectors for
string routes — `TermToIIDs` with bucket `"user:0dcde3a6"` and term
`"hello"` encodes to `"0:vngsgj:l8a8u0vgmher"`, with bucket `"default"`
and term `"yes"` to `"0:tlegv5:8hzoehaig16x"`, and `OIDToIID` with bucket
`"user:0dcde3a6"` and oid `"conversation:6501e83a"` to
`"1:vngsgj:330ky6g2kd34c"` (32-bit xxHash, seed 0 for the bucket, 64-bit
xxHash, seed 0 for the route, both rendered base-36). -/
theorem keyer_oracle_vectors :
    (StoreKeyerBuilder.term_to_iids "user:0dcde3a6" "hello").to_string
      = "0:vngsgj:l8a8u0vgmher"
    ∧ (StoreKeyerBuilder.term_to_iids "default" "yes").to_string
      = "0:tlegv5:8hzoehaig16x"
    ∧ (StoreKeyerBuilder.oid_to_iid "user:0dcde3a6" "conversation:6501e83a").to_string
      = "1:vngsgj:330ky6g2kd34c" := by
  refine ⟨?_, ?_, ?_⟩ <;> decide

/-- C2: for the kinds `IIDToOID` and `IIDToTerms`, for every bucket and
every IID, the route token of the encoded key is the shortest lowercase
base-36 rendering of the IID itself with no hashing applied (well-formed
as a base-36 token and decoding back to the IID); in particular IID `1`
encodes to route token `"1"` and IID `20` to `"k"`. -/
theorem iid_route_direct_base36 (bucket : String) (iid : StoreObjectIID) :
    (StoreKeyerBuilder.iid_to_oid bucket iid).route_to_compact = radixFmt 36 iid
    ∧ (StoreKeyerBuilder.iid_to_terms bucket iid).route_to_compact = radixFmt 36 iid
    ∧ isBase36Token (radixFmt 36 iid)
    ∧ Nat.ofDigits 36 (((radixFmt 36 iid).data.map digitVal).reverse) = iid
    ∧ (StoreKeyerBuilder.iid_to_oid bucket 1).route_to_compact = "1"
    ∧ (StoreKeyerBuilder.iid_to_terms bucket 20).route_to_compact = "k" :=
  ⟨rfl, rfl, isBase36Token_radixFmt iid, decode_radixFmt iid,
    by simp only [StoreKeyer.route_to_compact, StoreKeyerBuilder.iid_to_oid]; rfl,
    by simp only [StoreKeyer.route_to_compact, StoreKeyerBuilder.iid_to_terms]; rfl⟩

/-- C3: every encoded physical key is
`"<discriminant>:<bucket_token>:<route_token>"`, where the discriminant
is a single decimal digit 0-3 and both tokens are non-empty lowercase
base-36 text in shortest representation, free of the `':'` delimiter. -/
theorem physical_key_format (k : StoreKeyer) :
    k.to_string
      = toString k.idx.to_index ++ ":" ++ k.bucket_to_compact ++ ":" ++ k.route_to_compact
    ∧ toString k.idx.to_index ∈ (["0", "1", "2", "3"] : List String)
    ∧ isBase36Token k.bucket_to_compact
    ∧ isBase36Token k.route_to_compact
    ∧ ':' ∉ k.bucket_to_compact.data
    ∧ ':' ∉ k.route_to_compact.data := by
  obtain ⟨idx, bucket⟩ := k
  refine ⟨rfl, ?_, isBase36Token_radixFmt _, isBase36Token_radixFmt _,
    colon_not_base36 (isBase36Token_radixFmt _).2.1,
    colon_not_base36 (isBase36Token_radixFmt _).2.1⟩
  cases idx <;> (simp only [StoreKeyerIdx.to_index]; decide)

/-- C4: encoding is deterministic and stateless — encoding equal
(kind, bucket, route) inputs twice yields byte-identical physical keys:
the embedded encoder is a pure function of its inputs alone. -/
theorem encode_deterministic (i j : StoreKeyerIdx) (b c : String)
    (hij : i = j) (hbc : b = c) :
    StoreKeyer.to_string { idx := i, bucket := b }
      = StoreKeyer.to_string { idx := j, bucket := c } := by
  subst hij
  subst hbc
  rfl

theorem encode_deterministic_witness :
    StoreKeyer.to_string { idx := .TermToIIDs "hello", bucket := "default" }
      = StoreKeyer.to_string { idx := .TermToIIDs "hello", bucket := "default" } :=
  encode_deterministic _ _ _ _ rfl rfl

/-- C5: the fixed kind-to-discriminant mapping is `TermToIIDs = 0`,
`OIDToIID = 1`, `IIDToOID = 2`, `IIDToTerms = 3`, and for identical bucket
and route the keys of two kinds with distinct discriminants always differ
in their leading discriminant character. -/
theorem discriminant_separation :
    (∀ t, (StoreKeyerIdx.TermToIIDs t).to_index = 0)
    ∧ (∀ o, (StoreKeyerIdx.OIDToIID o).to_index = 1)
    ∧ (∀ i, (StoreKeyerIdx.IIDToOID i).to_index = 2)
    ∧ (∀ i, (StoreKeyerIdx.IIDToTerms i).to_index = 3)
    ∧ ∀ (i j : StoreKeyerIdx) (b : String), i.to_index ≠ j.to_index →
        (StoreKeyer.to_string { idx := i, bucket := b }).data.head?
          ≠ (StoreKeyer.to_string { idx := j, bucket := b }).data.head? := by
  refine ⟨fun _ => rfl, fun _ => rfl, fun _ => rfl, fun _ => rfl, ?_⟩
  intro i j b hij
  rw [to_string_head, to_string_head]
  intro hsome
  exact hij (digitChar_inj4 _ (to_index_lt_four i) _ (to_index_lt_four j)
    (Option.some.inj hsome))

theorem discriminant_separation_witness :
    (StoreKeyer.to_string { idx := .IIDToOID 5, bucket := "user:0dcde3a6" }).data.head?
      ≠ (StoreKeyer.to_string { idx := .IIDToTerms 5, bucket := "user:0dcde3a6" }).data.head? :=
  discriminant_separation.2.2.2.2 _ _ _ (by decide)

/-- C6: encoding is total — every kind, bucket string and route (the empty
string included) encodes to a non-empty physical key, and the integer
route `0` renders as the valid non-empty token `"0"`, never as an empty
field. -/
theorem encode_total (idx : StoreKeyerIdx) (bucket : String) :
    StoreKeyer.to_string { idx := idx, bucket := bucket } ≠ ""
    ∧ StoreKeyer.route_to_compact { idx := .IIDToOID 0, bucket := bucket } = "0"
    ∧ StoreKeyer.route_to_compact { idx := .IIDToTerms 0, bucket := bucket } = "0"
    ∧ radixFmt 36 0 = "0" := by
  refine ⟨?_, by simp only [StoreKeyer.route_to_compact]; rfl,
    by simp only [StoreKeyer.route_to_compact]; rfl, rfl⟩
  intro h
  have hh := to_string_head { idx := idx, bucket := bucket }
  rw [h] at hh
  exact Option.noConfusion hh

/-- C7: at store-handle open time the engine options are configured
exactly as the fixed contract — `create_if_missing` always true,
`use_fsync` false, leveled compaction, LZ4 compression when the compress
flag is on and none when it is off, and parallelism, max open files, max
background compactions and max background flushes taken from the
configuration inputs. -/
theorem configure_contract (c : ConfigStoreKVDatabase) :
    (StoreKVBuilder.configure c).create_if_missing = true
    ∧ (StoreKVBuilder.configure c).use_fsync = false
    ∧ (StoreKVBuilder.configure c).compaction_style = DBCompactionStyle.Level
    ∧ (StoreKVBuilder.configure c).compression_type
        = (if c.compress = true then DBCompressionType.Lz4 else DBCompressionType.None)
    ∧ (StoreKVBuilder.configure c).parallelism = Int.ofNat c.parallelism
    ∧ (StoreKVBuilder.configure c).max_open_files = Int.ofNat c.max_files
    ∧ (StoreKVBuilder.configure c).max_background_compactions = Int.ofNat c.max_compactions
    ∧ (StoreKVBuilder.configure c).max_background_flushes = Int.ofNat c.max_flushes :=
  ⟨rfl, rfl, rfl, rfl, rfl, rfl, rfl, rfl⟩

/-- C8, counterexample to the claim as stated: the facade's get operations
return absent on every input without consulting the store and are typed
value-or-absent only — at the concrete action below every get yields
absent and no get result other than absent is even possible, so no I/O
error is ever surfaced through a get as a distinct outcome. -/
theorem get_error_outcome_counterexample :
    actionExample.get_term_to_iids "hello" = none
    ∧ actionExample.get_oid_to_iid "conversation:6501e83a" = none
    ∧ actionExample.get_iid_to_oid 1 = none
    ∧ actionExample.get_iid_to_terms 1 = none
    ∧ ¬ ∃ v, actionExample.get_term_to_iids "hello" = some v := by
  refine ⟨rfl, rfl, rfl, rfl, ?_⟩
  rintro ⟨v, hv⟩
  simp [StoreKVAction.get_term_to_iids] at hv

/-- C8, amended: a "not found" outcome is the normal result of a get (the
absent case of its value-or-absent result type); in the current code every
get returns absent without consulting the store, and the get signature
carries no error outcome at all — failure is reported as a distinct error
outcome only by the mutation operations. -/
theorem get_absent_normal_outcome (a : StoreKVAction) (term : String)
    (oid : StoreObjectOID) (iid : StoreObjectIID) :
    a.get_term_to_iids term = none
    ∧ a.get_oid_to_iid oid = none
    ∧ a.get_iid_to_oid iid = none
    ∧ a.get_iid_to_terms iid = none
    ∧ a.set_term_to_iids term [] = .error ()
    ∧ a.delete_term_to_iids term = .error () :=
  ⟨rfl, rfl, rfl, rfl, rfl, rfl⟩

/-- C9, counterexample to the claim as stated: acquiring the store twice
for the same target opens two distinct engine connections (sequence
numbers 0 and 1) and leaves the engine with two connections opened — the
handle is not shared across calls. -/
theorem acquire_fresh_counterexample :
    (StoreKVPool.acquire "collection" confExample "/var/lib/sonic" engine0).1
      = Except.ok { database := { id := 0 } }
    ∧ (StoreKVPool.acquire "collection" confExample "/var/lib/sonic"
        (StoreKVPool.acquire "collection" confExample "/var/lib/sonic" engine0).2).1
      = Except.ok { database := { id := 1 } }
    ∧ (StoreKVPool.acquire "collection" confExample "/var/lib/sonic"
        (StoreKVPool.acquire "collection" confExample "/var/lib/sonic" engine0).2).2.openCount
      = 2 :=
  ⟨rfl, rfl, rfl⟩

/-- C9, amended: in the current code `acquire` opens a brand-new engine
connection on every call (pooling and handle reuse are left as TODO): each
call returns the next fresh connection and increments the engine's count
of opened connections by one, for every target and engine state. -/
theorem acquire_opens_per_call (target : String) (c : ConfigStoreKVDatabase)
    (path : String) (s : EngineState) :
    (StoreKVPool.acquire target c path s).1
      = Except.ok { database := { id := s.openCount } }
    ∧ (StoreKVPool.acquire target c path s).2.openCount = s.openCount + 1 :=
  ⟨rfl, rfl⟩

/-- C10: every operation of the action facade is an unconditional stub —
for every action (any bucket, any store handle) and every input, each of
the four get operations returns absent without consulting the store, and
each of the eight set/delete operations returns failure without writing
anything. -/
theorem facade_all_stubbed (a : StoreKVAction) (term : String)
    (oid : StoreObjectOID) (iid : StoreObjectIID)
    (iids : List StoreObjectIID) (terms : List String) :
    a.get_term_to_iids term = none
    ∧ a.get_oid_to_iid oid = none
    ∧ a.get_iid_to_oid iid = none
    ∧ a.get_iid_to_terms iid = none
    ∧ a.set_term_to_iids term iids = .error ()
    ∧ a.delete_term_to_iids term = .error ()
    ∧ a.set_oid_to_iid oid iid = .error ()
    ∧ a.delete_oid_to_iid oid = .error ()
    ∧ a.set_iid_to_oid iid oid = .error ()
    ∧ a.delete_iid_to_oid iid = .error ()
    ∧ a.set_iid_to_terms iid terms = .error ()
    ∧ a.delete_iid_to_terms iid = .error () :=
  ⟨rfl, rfl, rfl, rfl, rfl, rfl, rfl, rfl, rfl, rfl, rfl, rfl⟩

end Sonic

